import Mathlib

/-!
Verification of the serena-terraform-lab benchmarking suite.

This file gives a shallow embedding, in Lean 4, of the core computational
content of the repository:

* `TokenCounter.estimate_tokens` and `TokenCounter.count_operation_tokens`
  (src/token_benchmarks/token_benchmark_terraform.py),
* the dual-mode executors `benchmark_lsp_operation` /
  `benchmark_non_lsp_operation` and the per-scenario comparison record
  construction in `run_benchmark_scenarios`,
* the error-detection A/B test (src/ab_tests/error_detection_test.py):
  its fixture materialisation, its LSP and traditional detection loops
  and its detection-rate / improvement-factor arithmetic,
* the claims-validation summary of
  src/ab_tests/comprehensive_ab_test.py (`analyze_results`).

Modelling conventions: Python strings are Lean `String`s (fixture content is
ASCII); Python float arithmetic in the token estimator is modelled by exact
rational arithmetic, which is justified in the comment on `estimate_tokens`;
the external semantic service and the filesystem are passed in explicitly
(as a pattern oracle, respectively an association list of file contents);
a Python exception from an external call is an `Except.error`; wall-clock
timing and process-memory sampling are ambient I/O and carry no
computational content, so the corresponding record fields are omitted.
-/

set_option maxRecDepth 20000

namespace SerenaLab

/-! ## Character classes of the token estimator -/

/-- Python whitespace class, as matched by the regex `\s` and stripped by
`str.strip` on the ASCII fragment used by this repository:
space, tab, newline, carriage return, vertical tab, form feed. -/
def isPySpace (c : Char) : Bool :=
  c = ' ' || c = '\t' || c = '\n' || c = '\r' || c = '\x0b' || c = '\x0c'

/-- The fixed punctuation/operator character class of
`TokenCounter.estimate_tokens`
(the regex character class at token_benchmark_terraform.py:77). -/
def specialChars : List Char :=
  "\x7b\x7d()[].,;:\"\x27\x60=+-*/\\<>!@#$%^&|~".data

/-- Membership in the punctuation/operator class. -/
def isSpecial (c : Char) : Bool :=
  specialChars.contains c

/-- Python `s.strip()`: drop leading and trailing whitespace. -/
def pyStrip (s : List Char) : List Char :=
  ((s.dropWhile isPySpace).reverse.dropWhile isPySpace).reverse

/-- Python `s.rstrip()` (used only in proofs, to decompose `pyStrip`). -/
def pyRstrip (s : List Char) : List Char :=
  (s.reverse.dropWhile isPySpace).reverse

/-- The effect of `re.sub(r'\s+', ' ', ·)`: every maximal run of whitespace
characters is replaced by a single space.  (Implemented structurally: a
whitespace character followed by more whitespace is dropped, so each
maximal run contributes its single space at the run's last character.) -/
def collapseWs : List Char → List Char
  | [] => []
  | c :: rest =>
    if isPySpace c then
      match rest with
      | [] => [' ']
      | d :: _ =>
        if isPySpace d then collapseWs rest else ' ' :: collapseWs rest
    else c :: collapseWs rest

/-- The normalised text of `estimate_tokens`:
`re.sub(r'\s+', ' ', text.strip())`. -/
def cleanedText (s : List Char) : List Char :=
  collapseWs (pyStrip s)

/-- `TokenCounter.estimate_tokens` (token_benchmark_terraform.py:59-80).

Python computes `int(len(cleaned)/4 + special*0.3)` in binary64 floating
point; this embedding computes the same expression in exact rational
arithmetic.  The two agree on every realistic input: whenever the exact
value `L/4 + 3k/10` is not an integer it is at distance at least `1/20`
from the nearest integer, while the accumulated binary64 rounding error is
below `k * 2⁻⁵⁰`; and whenever it *is* an integer, `k` is a multiple of 5,
for which the binary64 product `k * 0.3` and the subsequent addition are
exact (the double nearest `0.3` is `0.3 - 0.2 * 2⁻⁵⁴`, and for `k ≡ 0 [MOD 5]`
the exact product `3k/10` is a representable half-integer within half an
ulp of `k * (0.3 - 0.2 * 2⁻⁵⁴)`).  So the truncated results coincide for all
`k ≤ L < 2⁴⁵`, far beyond any string this program can build. -/
def estimate_tokens (text : String) : ℕ :=
  if text = "" then 0
  else
    let cleaned := cleanedText text.data
    let base : ℚ := (cleaned.length : ℚ) / 4
    let special : ℕ := (cleaned.filter isSpecial).length
    (⌊base + (special : ℚ) * (3 / 10)⌋).toNat

/-! ## Basic facts about the normalisation pipeline -/

theorem isSpecial_eq_false_of_isPySpace {c : Char} (h : isPySpace c = true) :
    isSpecial c = false := by
  simp only [isPySpace, Bool.or_eq_true, decide_eq_true_eq] at h
  rcases h with ((((h | h) | h) | h) | h) | h <;> subst h <;> decide

/-- Characters dropped by `dropWhile isPySpace` are whitespace, hence not
special, so the special-character sublist is unchanged. -/
theorem filter_isSpecial_dropWhile (s : List Char) :
    (s.dropWhile isPySpace).filter isSpecial = s.filter isSpecial := by
  induction s with
  | nil => rfl
  | cons c rest ih =>
    by_cases h : isPySpace c = true
    · rw [List.dropWhile_cons_of_pos h, ih, List.filter_cons,
        isSpecial_eq_false_of_isPySpace h]
      simp
    · rw [List.dropWhile_cons_of_neg h]

/-- Stripping whitespace from either end preserves the special-character
sublist. -/
theorem filter_isSpecial_pyStrip (s : List Char) :
    (pyStrip s).filter isSpecial = s.filter isSpecial := by
  unfold pyStrip
  rw [List.filter_reverse, filter_isSpecial_dropWhile, ← List.filter_reverse,
    List.reverse_reverse, filter_isSpecial_dropWhile]

/-- Unfolding equation of `collapseWs` on a singleton. -/
theorem collapseWs_cons_nil (c : Char) :
    collapseWs [c] = if isPySpace c then [' '] else [c] := rfl

/-- Unfolding equation of `collapseWs` on two or more characters. -/
theorem collapseWs_cons_cons (c d : Char) (r : List Char) :
    collapseWs (c :: d :: r) =
      if isPySpace c then
        (if isPySpace d then collapseWs (d :: r) else ' ' :: collapseWs (d :: r))
      else c :: collapseWs (d :: r) := rfl

/-- Collapsing whitespace runs to single spaces preserves the
special-character sublist (a space is not a special character). -/
theorem filter_isSpecial_collapseWs (s : List Char) :
    (collapseWs s).filter isSpecial = s.filter isSpecial := by
  have hsp : isSpecial ' ' = false := by decide
  induction s with
  | nil => rfl
  | cons c rest ih =>
    by_cases h : isPySpace c = true
    · rcases rest with _ | ⟨d, r2⟩
      · rw [collapseWs_cons_nil, if_pos h]
        simp [hsp, isSpecial_eq_false_of_isPySpace h]
      · by_cases hd : isPySpace d = true
        · rw [collapseWs_cons_cons, if_pos h, if_pos hd, ih]
          simp [List.filter_cons, isSpecial_eq_false_of_isPySpace h]
        · rw [collapseWs_cons_cons, if_pos h, if_neg (by simp [hd]),
            List.filter_cons, hsp, List.filter_cons,
            isSpecial_eq_false_of_isPySpace h]
          simp only [Bool.false_eq_true, if_false]
          exact ih
    · rcases rest with _ | ⟨d, r2⟩
      · rw [collapseWs_cons_nil, if_neg h]
      · rw [collapseWs_cons_cons, if_neg h]
        simp [List.filter_cons, ih]

/-- The special-character count of the normalised text is the
special-character count of the raw text. -/
theorem filter_isSpecial_cleanedText (s : List Char) :
    (cleanedText s).filter isSpecial = s.filter isSpecial := by
  unfold cleanedText
  rw [filter_isSpecial_collapseWs, filter_isSpecial_pyStrip]

/-- Collapsing a non-empty list yields a non-empty list. -/
theorem collapseWs_ne_nil : ∀ {w : List Char}, w ≠ [] → collapseWs w ≠ [] := by
  intro w
  induction w with
  | nil => intro h; exact absurd rfl h
  | cons c rest ih =>
    intro _
    by_cases h : isPySpace c = true
    · rcases rest with _ | ⟨d, r2⟩
      · rw [collapseWs_cons_nil, if_pos h]
        exact fun hc => List.noConfusion hc
      · by_cases hd : isPySpace d = true
        · rw [collapseWs_cons_cons, if_pos h, if_pos hd]
          exact ih (fun hc => List.noConfusion hc)
        · rw [collapseWs_cons_cons, if_pos h, if_neg (by simp [hd])]
          exact fun hc => List.noConfusion hc
    · rcases rest with _ | ⟨d, r2⟩
      · rw [collapseWs_cons_nil, if_neg h]
        exact fun hc => List.noConfusion hc
      · rw [collapseWs_cons_cons, if_neg h]
        exact fun hc => List.noConfusion hc

/-- Appending text never shortens the collapsed form. -/
theorem collapseWs_length_append (v w : List Char) :
    (collapseWs v).length ≤ (collapseWs (v ++ w)).length := by
  induction v with
  | nil => exact Nat.zero_le _
  | cons c rest ih =>
    rw [List.cons_append]
    by_cases h : isPySpace c = true
    · rcases rest with _ | ⟨d, r2⟩
      · rw [collapseWs_cons_nil, if_pos h, List.nil_append]
        rcases w with _ | ⟨e, w2⟩
        · rw [collapseWs_cons_nil, if_pos h]
        · rw [collapseWs_cons_cons, if_pos h]
          by_cases he : isPySpace e = true
          · rw [if_pos he]
            exact List.length_pos.mpr (collapseWs_ne_nil (fun hc => List.noConfusion hc))
          · rw [if_neg (by simp [he])]
            simp only [List.length_cons, List.length_singleton,
              Nat.succ_le_succ_iff]
            exact Nat.zero_le _
      · by_cases hd : isPySpace d = true
        · rw [collapseWs_cons_cons, if_pos h, if_pos hd, List.cons_append,
            collapseWs_cons_cons, if_pos h, if_pos hd]
          exact ih
        · rw [collapseWs_cons_cons, if_pos h, if_neg (by simp [hd]),
            List.cons_append, collapseWs_cons_cons, if_pos h,
            if_neg (by simp [hd])]
          simp only [List.length_cons, Nat.succ_le_succ_iff]
          exact ih
    · rcases rest with _ | ⟨d, r2⟩
      · rw [collapseWs_cons_nil, if_neg h, List.nil_append]
        rcases w with _ | ⟨e, w2⟩
        · rw [collapseWs_cons_nil, if_neg h]
        · rw [collapseWs_cons_cons, if_neg h]
          simp only [List.length_cons, List.length_singleton,
            Nat.succ_le_succ_iff]
          exact Nat.zero_le _
      · rw [collapseWs_cons_cons, if_neg h, List.cons_append,
          collapseWs_cons_cons, if_neg h]
        simp only [List.length_cons, Nat.succ_le_succ_iff]
        exact ih

/-- Every list splits as its right-stripped part followed by its trailing
whitespace. -/
theorem pyRstrip_append_trailing (v : List Char) :
    pyRstrip v ++ (v.reverse.takeWhile isPySpace).reverse = v := by
  unfold pyRstrip
  rw [← List.reverse_append, List.takeWhile_append_dropWhile, List.reverse_reverse]

/-- Right-stripping can only shorten the collapsed form. -/
theorem collapseWs_length_pyRstrip (v : List Char) :
    (collapseWs (pyRstrip v)).length ≤ (collapseWs v).length := by
  conv_rhs => rw [← pyRstrip_append_trailing v]
  exact collapseWs_length_append ..

/-- Right-stripping an appended pair: either the whole appended part is
whitespace and disappears, or the left part survives intact. -/
theorem pyRstrip_append (v t : List Char) :
    pyRstrip (v ++ t) =
      if (pyRstrip t).isEmpty then pyRstrip v else v ++ pyRstrip t := by
  unfold pyRstrip
  rw [List.reverse_append, List.dropWhile_append]
  by_cases he : (t.reverse.dropWhile isPySpace).isEmpty = true
  · rw [if_pos he]
    have : ((t.reverse.dropWhile isPySpace).reverse).isEmpty = true := by
      rw [List.isEmpty_iff] at he ⊢
      rw [he]
      rfl
    rw [if_pos this]
  · rw [if_neg he]
    have : ¬((t.reverse.dropWhile isPySpace).reverse).isEmpty = true := by
      rw [List.isEmpty_iff] at he ⊢
      intro hc
      exact he (by simpa using congrArg List.reverse hc)
    rw [if_neg this, List.reverse_append, List.reverse_reverse]

/-- Left- and right-stripping commute in the order used by `pyStrip`. -/
theorem pyStrip_eq_rstrip_dropWhile (s : List Char) :
    pyStrip s = pyRstrip (s.dropWhile isPySpace) := rfl

/-- Appending text never shortens the normalised text
(`re.sub(r'\s+', ' ', ·.strip())`). -/
theorem cleanedText_length_append (s t : List Char) :
    (cleanedText s).length ≤ (cleanedText (s ++ t)).length := by
  unfold cleanedText
  rw [pyStrip_eq_rstrip_dropWhile, pyStrip_eq_rstrip_dropWhile,
    List.dropWhile_append]
  by_cases he : (s.dropWhile isPySpace).isEmpty = true
  · rw [if_pos he, List.isEmpty_iff.mp he]
    simp [pyRstrip, collapseWs]
  · rw [if_neg he, pyRstrip_append]
    by_cases ht : (pyRstrip t).isEmpty = true
    · rw [if_pos ht]
    · rw [if_neg ht]
      exact le_trans (collapseWs_length_pyRstrip _) (collapseWs_length_append ..)

/-- Closed-form characterisation of `estimate_tokens`: for every string
(empty or not) the estimate is `(5 * L + 6 * k) / 20` in natural-number
division, where `L` is the length of the normalised text and `k` its count
of punctuation/operator characters.  This is exactly
`int(L / 4 + k * 0.3)` evaluated in exact arithmetic. -/
theorem estimate_tokens_eq_div (t : String) :
    estimate_tokens t =
      (5 * (cleanedText t.data).length +
        6 * ((cleanedText t.data).filter isSpecial).length) / 20 := by
  unfold estimate_tokens
  by_cases h : t = ""
  · rw [if_pos h, h]
    simp [cleanedText, pyStrip, pyRstrip, collapseWs]
  · rw [if_neg h]
    simp only []
    have h1 : ((cleanedText t.data).length : ℚ) / 4 +
        (((cleanedText t.data).filter isSpecial).length : ℚ) * (3 / 10) =
        (((5 * (cleanedText t.data).length +
           6 * ((cleanedText t.data).filter isSpecial).length : ℕ)) : ℚ) /
          (((20 : ℕ)) : ℚ) := by
      push_cast
      ring
    rw [h1, Int.floor_toNat, Nat.floor_div_nat, Nat.floor_natCast]

/-! ## Token-usage records and the dual-mode executor
(token_benchmark_terraform.py) -/

/-- The `TokenUsage` dataclass (token_benchmark_terraform.py:31-42).
The `execution_time` field is a wall-clock sample and is omitted from the
embedding (it carries no computational content). -/
structure TokenUsage where
  operation : String
  method : String
  input_tokens : ℕ
  output_tokens : ℕ
  total_tokens : ℕ
  content_length : ℕ
  efficiency_ratio : ℚ
  success : Bool

/-- `TokenCounter.count_operation_tokens`
(token_benchmark_terraform.py:82-88). -/
def count_operation_tokens (input_content output_content : String) :
    ℕ × ℕ × ℕ :=
  let input_tokens := estimate_tokens input_content
  let output_tokens := estimate_tokens output_content
  (input_tokens, output_tokens, input_tokens + output_tokens)

/-- `TerraformTokenBenchmark.benchmark_lsp_operation`
(token_benchmark_terraform.py:837-873).  The external call `lsp_func` is
modelled as an `Except`: `Except.ok r` is a normal return whose
stringification is `r`, `Except.error e` is a raised exception with message
`e`; `kwargs` is the stringification of the keyword arguments interpolated
into the input context. -/
def benchmark_lsp_operation (operation_name kwargs : String)
    (lsp_func : Except String String) : TokenUsage :=
  let branch :=
    match lsp_func with
    | Except.ok r =>
      (r, true,
        "Task: " ++ operation_name ++ "\nUsing LSP semantic search\nParameters: "
          ++ kwargs)
    | Except.error e =>
      ("Error: " ++ e, false, "Task: " ++ operation_name ++ "\nFailed operation")
  let result := branch.1
  let success := branch.2.1
  let input_context := branch.2.2
  let counts := count_operation_tokens input_context result
  { operation := operation_name
    method := "LSP"
    input_tokens := counts.1
    output_tokens := counts.2.1
    total_tokens := counts.2.2
    content_length := result.length
    efficiency_ratio := (counts.2.2 : ℚ) / (max result.length 1 : ℕ)
    success := success }

/-- Python `repr` of a list of strings, as interpolated by the f-string
`f"...{files_to_read}..."` (single-quoted items, comma-space separated,
square brackets). -/
def pyListRepr (files : List String) : String :=
  "[" ++ String.intercalate ", " (files.map (fun f => "\x27" ++ f ++ "\x27")) ++ "]"

/-- The file-reading loop of `benchmark_non_lsp_operation`
(token_benchmark_terraform.py:881-888): each named file's content is
appended under a header; a file missing from the workspace raises
`FileNotFoundError`, which the inner handler swallows with `continue`, so a
missing file contributes nothing.  The workspace is modelled as an
association list from file name to content. -/
def non_lsp_all_content (fs : List (String × String))
    (files_to_read : List String) : String :=
  files_to_read.foldl
    (fun acc file_path =>
      match fs.lookup file_path with
      | some content => acc ++ "\n# File: " ++ file_path ++ "\n" ++ content ++ "\n"
      | none => acc)
    ""

/-- `TerraformTokenBenchmark.benchmark_non_lsp_operation`
(token_benchmark_terraform.py:875-919).  The only I/O failure the source
loop can see per file is `FileNotFoundError`, which it catches and skips;
no other exception source exists in the body, so the outer handler's
failure branch is unreachable in the model and `success` is the value set
on the normal path. -/
def benchmark_non_lsp_operation (operation_name : String)
    (fs : List (String × String)) (files_to_read : List String) : TokenUsage :=
  let all_content := non_lsp_all_content fs files_to_read
  let input_context :=
    "Task: " ++ operation_name ++ "\nReading entire files for context\nFiles: "
      ++ pyListRepr files_to_read ++ "\n\n" ++ all_content
  let result :=
    "Found content in " ++ toString files_to_read.length ++ " files, total "
      ++ toString all_content.length ++ " characters"
  let counts := count_operation_tokens input_context result
  { operation := operation_name
    method := "Non-LSP"
    input_tokens := counts.1
    output_tokens := counts.2.1
    total_tokens := counts.2.2
    content_length := result.length
    efficiency_ratio := (counts.2.2 : ℚ) / (max result.length 1 : ℕ)
    success := true }

/-- The `BenchmarkResult` dataclass (token_benchmark_terraform.py:45-53). -/
structure BenchmarkResult where
  scenario : String
  lsp_usage : TokenUsage
  non_lsp_usage : TokenUsage
  token_savings : ℤ
  efficiency_improvement : ℚ
  context_reduction : ℚ

/-- The per-scenario comparison computed inside
`run_benchmark_scenarios` (token_benchmark_terraform.py:1002-1020). -/
def mkBenchmarkResult (scenario : String) (lsp_usage non_lsp_usage : TokenUsage) :
    BenchmarkResult :=
  { scenario := scenario
    lsp_usage := lsp_usage
    non_lsp_usage := non_lsp_usage
    token_savings :=
      (non_lsp_usage.total_tokens : ℤ) - (lsp_usage.total_tokens : ℤ)
    efficiency_improvement :=
      ((non_lsp_usage.total_tokens : ℚ) - (lsp_usage.total_tokens : ℚ)) /
        ((max non_lsp_usage.total_tokens 1 : ℕ) : ℚ) * 100
    context_reduction :=
      ((non_lsp_usage.input_tokens : ℚ) - (lsp_usage.input_tokens : ℚ)) /
        ((max non_lsp_usage.input_tokens 1 : ℕ) : ℚ) * 100 }

/-- One iteration of the scenario loop of `run_benchmark_scenarios`
(token_benchmark_terraform.py:984-1022): both modes are run on the same
scenario name and the pair is reduced to a `BenchmarkResult`. -/
def runScenario (name kwargs : String) (lsp_func : Except String String)
    (fs : List (String × String)) (non_lsp_files : List String) :
    BenchmarkResult :=
  mkBenchmarkResult name
    (benchmark_lsp_operation name kwargs lsp_func)
    (benchmark_non_lsp_operation name fs non_lsp_files)


/-! ## Fixture materialisation

The fixture files written by
`TerraformTokenBenchmark.create_realistic_terraform_project`
(token_benchmark_terraform.py:99-809) and
`ErrorDetectionTester.create_error_scenarios`
(error_detection_test.py:33-131) are constant strings embedded below
verbatim (braces, quotes, apostrophes and backticks appear as `\x7b`,
`\x7d`, `\"`, `\x27`, `\x60` escapes).  `syn_errors_tf` embeds the
source constant named `syntax_errors_tf`. -/

/-- Fixture content embedded verbatim from the source (main_tf). -/
def main_tf : String :=
  "\nterraform \x7b\n  required_version = \">= 1.0\"\n  required_providers \x7b\n    aws = \x7b\n      source  = \"hashicorp/aws\"\n      version = \"~> 5.0\"\n    \x7d\n    random = \x7b\n      source  = \"hashicorp/random\"\n      version = \"~> 3.1\"\n    \x7d\n  \x7d\n\x7d\n\nprovider \"aws\" \x7b\n  region = var.aws_region\n  \n  default_tags \x7b\n    tags = \x7b\n      Project     = var.project_name\n      Environment = var.environment\n      ManagedBy   = \"terraform\"\n      CreatedAt   = timestamp()\n    \x7d\n  \x7d\n\x7d\n\n# Random password for RDS\nresource \"random_password\" \"db_password\" \x7b\n  length  = 16\n  special = true\n\x7d\n\n# VPC and Networking\nresource \"aws_vpc\" \"main\" \x7b\n  cidr_block           = var.vpc_cidr\n  enable_dns_hostnames = true\n  enable_dns_support   = true\n  \n  tags = \x7b\n    Name = \"$\x7bvar.project_name\x7d-vpc\"\n  \x7d\n\x7d\n\nresource \"aws_internet_gateway\" \"main\" \x7b\n  vpc_id = aws_vpc.main.id\n  \n  tags = \x7b\n    Name = \"$\x7bvar.project_name\x7d-igw\"\n  \x7d\n\x7d\n\nresource \"aws_subnet\" \"public\" \x7b\n  count = length(var.availability_zones)\n  \n  vpc_id                  = aws_vpc.main.id\n  cidr_block              = cidrsubnet(var.vpc_cidr, 8, count.index)\n  availability_zone       = var.availability_zones[count.index]\n  map_public_ip_on_launch = true\n  \n  tags = \x7b\n    Name = \"$\x7bvar.project_name\x7d-public-$\x7bcount.index + 1\x7d\"\n    Type = \"public\"\n  \x7d\n\x7d\n\nresource \"aws_subnet\" \"private\" \x7b\n  count = length(var.availability_zones)\n  \n  vpc_id            = aws_vpc.main.id\n  cidr_block        = cidrsubnet(var.vpc_cidr, 8, count.index + 10)\n  availability_zone = var.availability_zones[count.index]\n  \n  tags = \x7b\n    Name = \"$\x7bvar.project_name\x7d-private-$\x7bcount.index + 1\x7d\"\n    Type = \"private\"\n  \x7d\n\x7d\n\nresource \"aws_route_table\" \"public\" \x7b\n  vpc_id = aws_vpc.main.id\n  \n  route \x7b\n    cidr_block = \"0.0.0.0/0\"\n    gateway_id = aws_internet_gateway.main.id\n  \x7d\n  \n  tags = \x7b\n    Name = \"$\x7bvar.project_name\x7d-public-rt\"\n  \x7d\n\x7d\n\nresource \"aws_route_table_association\" \"public\" \x7b\n  count = length(aws_subnet.public)\n  \n  subnet_id      = aws_subnet.public[count.index].id\n  route_table_id = aws_route_table.public.id\n\x7d\n\n# NAT Gateway for private subnets\nresource \"aws_eip\" \"nat\" \x7b\n  domain = \"vpc\"\n  \n  tags = \x7b\n    Name = \"$\x7bvar.project_name\x7d-nat-eip\"\n  \x7d\n\x7d\n\nresource \"aws_nat_gateway\" \"main\" \x7b\n  allocation_id = aws_eip.nat.id\n  subnet_id     = aws_subnet.public[0].id\n  \n  tags = \x7b\n    Name = \"$\x7bvar.project_name\x7d-nat\"\n  \x7d\n  \n  depends_on = [aws_internet_gateway.main]\n\x7d\n\nresource \"aws_route_table\" \"private\" \x7b\n  vpc_id = aws_vpc.main.id\n  \n  route \x7b\n    cidr_block     = \"0.0.0.0/0\"\n    nat_gateway_id = aws_nat_gateway.main.id\n  \x7d\n  \n  tags = \x7b\n    Name = \"$\x7bvar.project_name\x7d-private-rt\"\n  \x7d\n\x7d\n\nresource \"aws_route_table_association\" \"private\" \x7b\n  count = length(aws_subnet.private)\n  \n  subnet_id      = aws_subnet.private[count.index].id\n  route_table_id = aws_route_table.private.id\n\x7d\n\n# Security Groups\nresource \"aws_security_group\" \"web\" \x7b\n  name_prefix = \"$\x7bvar.project_name\x7d-web\"\n  vpc_id      = aws_vpc.main.id\n  description = \"Security group for web servers\"\n  \n  ingress \x7b\n    description = \"HTTP\"\n    from_port   = 80\n    to_port     = 80\n    protocol    = \"tcp\"\n    cidr_blocks = [\"0.0.0.0/0\"]\n  \x7d\n  \n  ingress \x7b\n    description = \"HTTPS\"\n    from_port   = 443\n    to_port     = 443\n    protocol    = \"tcp\"\n    cidr_blocks = [\"0.0.0.0/0\"]\n  \x7d\n  \n  ingress \x7b\n    description     = \"SSH\"\n    from_port       = 22\n    to_port         = 22\n    protocol        = \"tcp\"\n    security_groups = [aws_security_group.bastion.id]\n  \x7d\n  \n  egress \x7b\n    from_port   = 0\n    to_port     = 0\n    protocol    = \"-1\"\n    cidr_blocks = [\"0.0.0.0/0\"]\n  \x7d\n  \n  tags = \x7b\n    Name = \"$\x7bvar.project_name\x7d-web-sg\"\n  \x7d\n\x7d\n\nresource \"aws_security_group\" \"database\" \x7b\n  name_prefix = \"$\x7bvar.project_name\x7d-db\"\n  vpc_id      = aws_vpc.main.id\n  description = \"Security group for database\"\n  \n  ingress \x7b\n    description     = \"MySQL/Aurora\"\n    from_port       = 3306\n    to_port         = 3306\n    protocol        = \"tcp\"\n    security_groups = [aws_security_group.web.id]\n  \x7d\n  \n  tags = \x7b\n    Name = \"$\x7bvar.project_name\x7d-db-sg\"\n  \x7d\n\x7d\n\nresource \"aws_security_group\" \"bastion\" \x7b\n  name_prefix = \"$\x7bvar.project_name\x7d-bastion\"\n  vpc_id      = aws_vpc.main.id\n  description = \"Security group for bastion host\"\n  \n  ingress \x7b\n    description = \"SSH\"\n    from_port   = 22\n    to_port     = 22\n    protocol    = \"tcp\"\n    cidr_blocks = var.allowed_ssh_cidrs\n  \x7d\n  \n  egress \x7b\n    from_port   = 0\n    to_port     = 0\n    protocol    = \"-1\"\n    cidr_blocks = [\"0.0.0.0/0\"]\n  \x7d\n  \n  tags = \x7b\n    Name = \"$\x7bvar.project_name\x7d-bastion-sg\"\n  \x7d\n\x7d\n\n# Load Balancer\nresource \"aws_lb\" \"main\" \x7b\n  name               = \"$\x7bvar.project_name\x7d-alb\"\n  internal           = false\n  load_balancer_type = \"application\"\n  security_groups    = [aws_security_group.web.id]\n  subnets            = aws_subnet.public[*].id\n  \n  enable_deletion_protection = false\n  \n  tags = \x7b\n    Name = \"$\x7bvar.project_name\x7d-alb\"\n  \x7d\n\x7d\n\nresource \"aws_lb_target_group\" \"web\" \x7b\n  name     = \"$\x7bvar.project_name\x7d-web-tg\"\n  port     = 80\n  protocol = \"HTTP\"\n  vpc_id   = aws_vpc.main.id\n  \n  health_check \x7b\n    enabled             = true\n    healthy_threshold   = 2\n    interval            = 30\n    matcher             = \"200\"\n    path                = \"/\"\n    port                = \"traffic-port\"\n    protocol            = \"HTTP\"\n    timeout             = 5\n    unhealthy_threshold = 2\n  \x7d\n  \n  tags = \x7b\n    Name = \"$\x7bvar.project_name\x7d-web-tg\"\n  \x7d\n\x7d\n\nresource \"aws_lb_listener\" \"web\" \x7b\n  load_balancer_arn = aws_lb.main.arn\n  port              = \"80\"\n  protocol          = \"HTTP\"\n  \n  default_action \x7b\n    type             = \"forward\"\n    target_group_arn = aws_lb_target_group.web.arn\n  \x7d\n\x7d\n\n# Launch Template and Auto Scaling Group\nresource \"aws_launch_template\" \"web\" \x7b\n  name_prefix   = \"$\x7bvar.project_name\x7d-web\"\n  image_id      = data.aws_ami.amazon_linux.id\n  instance_type = var.instance_type\n  \n  vpc_security_group_ids = [aws_security_group.web.id]\n  \n  user_data = base64encode(templatefile(\"$\x7bpath.module\x7d/user_data.sh\", \x7b\n    project_name = var.project_name\n  \x7d))\n  \n  tag_specifications \x7b\n    resource_type = \"instance\"\n    tags = \x7b\n      Name = \"$\x7bvar.project_name\x7d-web-instance\"\n    \x7d\n  \x7d\n\x7d\n\nresource \"aws_autoscaling_group\" \"web\" \x7b\n  name                = \"$\x7bvar.project_name\x7d-web-asg\"\n  vpc_zone_identifier = aws_subnet.private[*].id\n  target_group_arns   = [aws_lb_target_group.web.arn]\n  health_check_type   = \"ELB\"\n  \n  min_size         = var.min_instances\n  max_size         = var.max_instances\n  desired_capacity = var.desired_instances\n  \n  launch_template \x7b\n    id      = aws_launch_template.web.id\n    version = \"$Latest\"\n  \x7d\n  \n  tag \x7b\n    key                 = \"Name\"\n    value               = \"$\x7bvar.project_name\x7d-web-asg\"\n    propagate_at_launch = false\n  \x7d\n\x7d\n\n# RDS Database\nresource \"aws_db_subnet_group\" \"main\" \x7b\n  name       = \"$\x7bvar.project_name\x7d-db-subnet-group\"\n  subnet_ids = aws_subnet.private[*].id\n  \n  tags = \x7b\n    Name = \"$\x7bvar.project_name\x7d-db-subnet-group\"\n  \x7d\n\x7d\n\nresource \"aws_db_instance\" \"main\" \x7b\n  identifier = \"$\x7bvar.project_name\x7d-database\"\n  \n  allocated_storage     = 20\n  max_allocated_storage = 100\n  storage_type          = \"gp2\"\n  storage_encrypted     = true\n  \n  engine         = \"mysql\"\n  engine_version = \"8.0\"\n  instance_class = var.db_instance_class\n  \n  db_name  = var.database_name\n  username = var.database_username\n  password = random_password.db_password.result\n  \n  vpc_security_group_ids = [aws_security_group.database.id]\n  db_subnet_group_name   = aws_db_subnet_group.main.name\n  \n  backup_retention_period = 7\n  backup_window          = \"03:00-04:00\"\n  maintenance_window     = \"sun:04:00-sun:05:00\"\n  \n  skip_final_snapshot = true\n  deletion_protection = false\n  \n  tags = \x7b\n    Name = \"$\x7bvar.project_name\x7d-database\"\n  \x7d\n\x7d\n\n# Bastion Host\nresource \"aws_instance\" \"bastion\" \x7b\n  ami           = data.aws_ami.amazon_linux.id\n  instance_type = \"t3.micro\"\n  subnet_id     = aws_subnet.public[0].id\n  \n  vpc_security_group_ids = [aws_security_group.bastion.id]\n  \n  tags = \x7b\n    Name = \"$\x7bvar.project_name\x7d-bastion\"\n  \x7d\n\x7d\n\n# Data sources\ndata \"aws_ami\" \"amazon_linux\" \x7b\n  most_recent = true\n  owners      = [\"amazon\"]\n  \n  filter \x7b\n    name   = \"name\"\n    values = [\"amzn2-ami-hvm-*-x86_64-gp2\"]\n  \x7d\n\x7d\n\ndata \"aws_availability_zones\" \"available\" \x7b\n  state = \"available\"\n\x7d\n"

/-- Fixture content embedded verbatim from the source (variables_tf). -/
def variables_tf : String :=
  "\nvariable \"aws_region\" \x7b\n  description = \"AWS region for resources\"\n  type        = string\n  default     = \"us-west-2\"\n\x7d\n\nvariable \"project_name\" \x7b\n  description = \"Name of the project\"\n  type        = string\n  default     = \"terraform-benchmark\"\n  \n  validation \x7b\n    condition     = length(var.project_name) > 0 && length(var.project_name) <= 20\n    error_message = \"Project name must be between 1 and 20 characters.\"\n  \x7d\n\x7d\n\nvariable \"environment\" \x7b\n  description = \"Environment name (dev, staging, prod)\"\n  type        = string\n  default     = \"dev\"\n  \n  validation \x7b\n    condition     = contains([\"dev\", \"staging\", \"prod\"], var.environment)\n    error_message = \"Environment must be one of: dev, staging, prod.\"\n  \x7d\n\x7d\n\nvariable \"vpc_cidr\" \x7b\n  description = \"CIDR block for VPC\"\n  type        = string\n  default     = \"10.0.0.0/16\"\n  \n  validation \x7b\n    condition     = can(cidrhost(var.vpc_cidr, 0))\n    error_message = \"VPC CIDR must be a valid IPv4 CIDR block.\"\n  \x7d\n\x7d\n\nvariable \"availability_zones\" \x7b\n  description = \"List of availability zones\"\n  type        = list(string)\n  default     = [\"us-west-2a\", \"us-west-2b\", \"us-west-2c\"]\n\x7d\n\nvariable \"instance_type\" \x7b\n  description = \"EC2 instance type for web servers\"\n  type        = string\n  default     = \"t3.medium\"\n  \n  validation \x7b\n    condition = contains([\n      \"t3.micro\", \"t3.small\", \"t3.medium\", \"t3.large\",\n      \"m5.large\", \"m5.xlarge\", \"c5.large\", \"c5.xlarge\"\n    ], var.instance_type)\n    error_message = \"Instance type must be a valid EC2 instance type.\"\n  \x7d\n\x7d\n\nvariable \"min_instances\" \x7b\n  description = \"Minimum number of instances in ASG\"\n  type        = number\n  default     = 2\n  \n  validation \x7b\n    condition     = var.min_instances >= 1 && var.min_instances <= 10\n    error_message = \"Minimum instances must be between 1 and 10.\"\n  \x7d\n\x7d\n\nvariable \"max_instances\" \x7b\n  description = \"Maximum number of instances in ASG\"\n  type        = number\n  default     = 6\n  \n  validation \x7b\n    condition     = var.max_instances >= 1 && var.max_instances <= 20\n    error_message = \"Maximum instances must be between 1 and 20.\"\n  \x7d\n\x7d\n\nvariable \"desired_instances\" \x7b\n  description = \"Desired number of instances in ASG\"\n  type        = number\n  default     = 3\n  \n  validation \x7b\n    condition     = var.desired_instances >= 1 && var.desired_instances <= 15\n    error_message = \"Desired instances must be between 1 and 15.\"\n  \x7d\n\x7d\n\nvariable \"db_instance_class\" \x7b\n  description = \"RDS instance class\"\n  type        = string\n  default     = \"db.t3.micro\"\n  \n  validation \x7b\n    condition = contains([\n      \"db.t3.micro\", \"db.t3.small\", \"db.t3.medium\",\n      \"db.m5.large\", \"db.m5.xlarge\"\n    ], var.db_instance_class)\n    error_message = \"Database instance class must be a valid RDS instance type.\"\n  \x7d\n\x7d\n\nvariable \"database_name\" \x7b\n  description = \"Name of the database\"\n  type        = string\n  default     = \"appdb\"\n  \n  validation \x7b\n    condition     = can(regex(\"^[a-zA-Z][a-zA-Z0-9]*$\", var.database_name))\n    error_message = \"Database name must start with a letter and contain only alphanumeric characters.\"\n  \x7d\n\x7d\n\nvariable \"database_username\" \x7b\n  description = \"Username for the database\"\n  type        = string\n  default     = \"admin\"\n  \n  validation \x7b\n    condition     = length(var.database_username) >= 4\n    error_message = \"Database username must be at least 4 characters long.\"\n  \x7d\n\x7d\n\nvariable \"allowed_ssh_cidrs\" \x7b\n  description = \"CIDR blocks allowed to SSH to bastion host\"\n  type        = list(string)\n  default     = [\"0.0.0.0/0\"]\n  \n  validation \x7b\n    condition     = length(var.allowed_ssh_cidrs) > 0\n    error_message = \"At least one CIDR block must be specified for SSH access.\"\n  \x7d\n\x7d\n\nvariable \"backup_retention_days\" \x7b\n  description = \"Number of days to retain database backups\"\n  type        = number\n  default     = 7\n  \n  validation \x7b\n    condition     = var.backup_retention_days >= 0 && var.backup_retention_days <= 35\n    error_message = \"Backup retention must be between 0 and 35 days.\"\n  \x7d\n\x7d\n\nvariable \"enable_deletion_protection\" \x7b\n  description = \"Enable deletion protection for critical resources\"\n  type        = bool\n  default     = false\n\x7d\n\nvariable \"monitoring_enabled\" \x7b\n  description = \"Enable enhanced monitoring\"\n  type        = bool\n  default     = true\n\x7d\n\nvariable \"tags\" \x7b\n  description = \"Additional tags to apply to all resources\"\n  type        = map(string)\n  default     = \x7b\x7d\n\x7d\n"

/-- Fixture content embedded verbatim from the source (outputs_tf). -/
def outputs_tf : String :=
  "\noutput \"vpc_id\" \x7b\n  description = \"ID of the VPC\"\n  value       = aws_vpc.main.id\n\x7d\n\noutput \"vpc_cidr\" \x7b\n  description = \"CIDR block of the VPC\"\n  value       = aws_vpc.main.cidr_block\n\x7d\n\noutput \"internet_gateway_id\" \x7b\n  description = \"ID of the Internet Gateway\"\n  value       = aws_internet_gateway.main.id\n\x7d\n\noutput \"public_subnet_ids\" \x7b\n  description = \"IDs of the public subnets\"\n  value       = aws_subnet.public[*].id\n\x7d\n\noutput \"private_subnet_ids\" \x7b\n  description = \"IDs of the private subnets\"\n  value       = aws_subnet.private[*].id\n\x7d\n\noutput \"nat_gateway_id\" \x7b\n  description = \"ID of the NAT Gateway\"\n  value       = aws_nat_gateway.main.id\n\x7d\n\noutput \"nat_gateway_ip\" \x7b\n  description = \"Public IP of the NAT Gateway\"\n  value       = aws_eip.nat.public_ip\n\x7d\n\noutput \"load_balancer_arn\" \x7b\n  description = \"ARN of the Application Load Balancer\"\n  value       = aws_lb.main.arn\n\x7d\n\noutput \"load_balancer_dns\" \x7b\n  description = \"DNS name of the Application Load Balancer\"\n  value       = aws_lb.main.dns_name\n\x7d\n\noutput \"load_balancer_zone_id\" \x7b\n  description = \"Zone ID of the Application Load Balancer\"\n  value       = aws_lb.main.zone_id\n\x7d\n\noutput \"target_group_arn\" \x7b\n  description = \"ARN of the target group\"\n  value       = aws_lb_target_group.web.arn\n\x7d\n\noutput \"autoscaling_group_arn\" \x7b\n  description = \"ARN of the Auto Scaling Group\"\n  value       = aws_autoscaling_group.web.arn\n\x7d\n\noutput \"autoscaling_group_name\" \x7b\n  description = \"Name of the Auto Scaling Group\"\n  value       = aws_autoscaling_group.web.name\n\x7d\n\noutput \"launch_template_id\" \x7b\n  description = \"ID of the launch template\"\n  value       = aws_launch_template.web.id\n\x7d\n\noutput \"database_endpoint\" \x7b\n  description = \"RDS instance endpoint\"\n  value       = aws_db_instance.main.endpoint\n  sensitive   = true\n\x7d\n\noutput \"database_port\" \x7b\n  description = \"RDS instance port\"\n  value       = aws_db_instance.main.port\n\x7d\n\noutput \"database_name\" \x7b\n  description = \"Database name\"\n  value       = aws_db_instance.main.db_name\n\x7d\n\noutput \"database_username\" \x7b\n  description = \"Database username\"\n  value       = aws_db_instance.main.username\n  sensitive   = true\n\x7d\n\noutput \"bastion_instance_id\" \x7b\n  description = \"ID of the bastion host\"\n  value       = aws_instance.bastion.id\n\x7d\n\noutput \"bastion_public_ip\" \x7b\n  description = \"Public IP of the bastion host\"\n  value       = aws_instance.bastion.public_ip\n\x7d\n\noutput \"web_security_group_id\" \x7b\n  description = \"ID of the web security group\"\n  value       = aws_security_group.web.id\n\x7d\n\noutput \"database_security_group_id\" \x7b\n  description = \"ID of the database security group\"\n  value       = aws_security_group.database.id\n\x7d\n\noutput \"bastion_security_group_id\" \x7b\n  description = \"ID of the bastion security group\"\n  value       = aws_security_group.bastion.id\n\x7d\n\noutput \"availability_zones\" \x7b\n  description = \"Availability zones used\"\n  value       = var.availability_zones\n\x7d\n\noutput \"region\" \x7b\n  description = \"AWS region\"\n  value       = var.aws_region\n\x7d\n"

/-- Fixture content embedded verbatim from the source (user_data_sh). -/
def user_data_sh : String :=
  "#!/bin/bash\nyum update -y\nyum install -y httpd\nsystemctl start httpd\nsystemctl enable httpd\necho \"<h1>Hello from $\x7bproject_name\x7d</h1>\" > /var/www/html/index.html\necho \"<p>Instance: $(curl -s http://169.254.169.254/latest/meta-data/instance-id)</p>\" >> /var/www/html/index.html\n"

/-- Fixture content embedded verbatim from the source (syn_errors_tf). -/
def syn_errors_tf : String :=
  "\n# Syntax error: missing quotes around resource type\nresource aws_vpc \"broken\" \x7b\n  cidr_block = \"10.0.0.0/16\"\n\x7d\n\n# Type error: number instead of string\nresource \"aws_instance\" \"type_error\" \x7b\n  ami           = \"ami-12345\"\n  instance_type = 123\n  subnet_id     = aws_subnet.public.id\n\x7d\n\n# Missing required argument\nresource \"aws_vpc\" \"incomplete\" \x7b\n  # Missing cidr_block\n  enable_dns_hostnames = true\n\x7d\n"

/-- Fixture content embedded verbatim from the source (logic_errors_tf). -/
def logic_errors_tf : String :=
  "\n# Circular dependency\nresource \"aws_security_group\" \"sg1\" \x7b\n  name   = \"sg1\"\n  vpc_id = aws_vpc.main.id\n  \n  ingress \x7b\n    from_port                = 80\n    to_port                  = 80\n    protocol                 = \"tcp\"\n    source_security_group_id = aws_security_group.sg2.id\n  \x7d\n\x7d\n\nresource \"aws_security_group\" \"sg2\" \x7b\n  name   = \"sg2\"\n  vpc_id = aws_vpc.main.id\n  \n  ingress \x7b\n    from_port                = 443\n    to_port                  = 443\n    protocol                 = \"tcp\"\n    source_security_group_id = aws_security_group.sg1.id\n  \x7d\n\x7d\n"

/-- Fixture content embedded verbatim from the source (reference_errors_tf). -/
def reference_errors_tf : String :=
  "\n# Reference to non-existent resource\nresource \"aws_instance\" \"web\" \x7b\n  ami           = \"ami-12345\"\n  instance_type = \"t3.micro\"\n  subnet_id     = aws_subnet.nonexistent.id  # Error: doesn\x27t exist\n\x7d\n\n# Invalid variable reference\nlocals \x7b\n  invalid_ref = var.undefined_variable  # Error: undefined variable\n\x7d\n\n# Wrong resource type reference\noutput \"instance_ip\" \x7b\n  value = aws_instance.database.public_ip  # Error: should be aws_db_instance\n\x7d\n"

/-- Fixture content embedded verbatim from the source (variables_errors_tf). -/
def variables_errors_tf : String :=
  "\nvariable \"instance_count\" \x7b\n  type    = number\n  default = \"not_a_number\"  # Error: type mismatch\n\x7d\n\nvariable \"invalid_validation\" \x7b\n  type = string\n  \n  validation \x7b\n    condition     = contains([\"dev\", \"prod\"], var.nonexistent)  # Error: undefined var\n    error_message = \"Invalid environment\"\n  \x7d\n\x7d\n"


/-- The file tree written by `create_realistic_terraform_project`
(token_benchmark_terraform.py:793-809), as (file name, content) pairs in
write order, names relative to the workspace. -/
def project_fixture_files : List (String × String) :=
  [("main.tf", main_tf), ("variables.tf", variables_tf),
   ("outputs.tf", outputs_tf), ("user_data.sh", user_data_sh)]

/-- `TerraformTokenBenchmark.create_realistic_terraform_project`: the
absolute (path, content) writes performed for a given workspace path
(each write opens `f"{workspace_path}/{name}"`). -/
def create_realistic_terraform_project (workspace_path : String) :
    List (String × String) :=
  project_fixture_files.map (fun fc => (workspace_path ++ "/" ++ fc.1, fc.2))

/-- The file tree written by `create_error_scenarios`
(error_detection_test.py:123-131), as (file name, content) pairs in write
order, names relative to the workspace. -/
def error_scenario_files : List (String × String) :=
  [("syntax_errors.tf", syn_errors_tf), ("logic_errors.tf", logic_errors_tf),
   ("reference_errors.tf", reference_errors_tf),
   ("variables_errors.tf", variables_errors_tf)]

/-- `ErrorDetectionTester.create_error_scenarios`: the absolute
(path, content) writes performed for a given workspace path. -/
def create_error_scenarios (workspace : String) : List (String × String) :=
  error_scenario_files.map (fun fc => (workspace ++ "/" ++ fc.1, fc.2))


/-! ## The error-detection A/B test (error_detection_test.py) -/

/-- One entry of the `known_errors` table
(error_detection_test.py:162-205). -/
structure KnownError where
  type : String
  description : String
  pattern : String
  file : String
deriving DecidableEq

/-- The seven known errors of `test_lsp_error_detection`
(error_detection_test.py:162-205). -/
def known_errors : List KnownError :=
  [{ type := "syntax_error",
     description := "Missing quotes around resource type",
     pattern := "aws_vpc", file := "syntax_errors.tf" },
   { type := "type_error",
     description := "Number instead of string for instance_type",
     pattern := "instance_type", file := "syntax_errors.tf" },
   { type := "missing_argument",
     description := "Missing required cidr_block",
     pattern := "incomplete", file := "syntax_errors.tf" },
   { type := "circular_dependency",
     description := "Circular dependency between security groups",
     pattern := "security_group", file := "logic_errors.tf" },
   { type := "invalid_reference",
     description := "Reference to non-existent subnet",
     pattern := "nonexistent", file := "reference_errors.tf" },
   { type := "undefined_variable",
     description := "Reference to undefined variable",
     pattern := "undefined_variable", file := "reference_errors.tf" },
   { type := "type_mismatch",
     description := "String value for number type",
     pattern := "not_a_number", file := "variables_errors.tf" }]

/-- One entry of the `detection_attempts` list
(error_detection_test.py:234-239 and 245-250).  On the success path the
entry has `symbols_found` and no `error_message`; on the exception path it
has `error_message` and no symbol count.  The `execution_time` field is a
wall-clock sample and is omitted. -/
structure DetectionAttempt where
  error : KnownError
  detected : Bool
  symbols_found : Option ℕ
  error_message : Option String
deriving DecidableEq

/-- Python true division: raises `ZeroDivisionError` on a zero denominator,
modelled as `none`. -/
def pyDiv (a b : ℚ) : Option ℚ :=
  if b = 0 then none else some (a / b)

/-- The detection-rate expression
`(len(detected_errors) / len(known_errors)) * 100`
(error_detection_test.py:252): a plain division by the raw total, with no
floor on the denominator. -/
def detectionRateExpr (detected total : ℕ) : Option ℚ :=
  (pyDiv (detected : ℚ) (total : ℚ)).map (fun r => r * 100)

/-- The summary dict returned by `test_lsp_error_detection`
(error_detection_test.py:261-267). -/
structure LspDetectionSummary where
  detection_rate : Option ℚ
  detected_errors : ℕ
  total_errors : ℕ
  errors_found : List String
  detection_attempts : List DetectionAttempt

/-- `ErrorDetectionTester.test_lsp_error_detection`
(error_detection_test.py:133-267), with agent construction and printing
stripped.  The external `find_symbol_tool.apply_ex` call is modelled by an
oracle from the queried pattern to either a parsed symbol count
(`json.loads` of the payload) or a raised exception message.  The loop
body appends one attempt per known error whatever the outcome, and
`detected_errors` collects exactly the errors whose attempt has
`detected = True`. -/
def test_lsp_error_detection (oracle : String → Except String ℕ) :
    LspDetectionSummary :=
  let detection_attempts := known_errors.map (fun e =>
    match oracle e.pattern with
    | Except.ok n =>
      { error := e, detected := decide (0 < n),
        symbols_found := some n, error_message := none }
    | Except.error msg =>
      { error := e, detected := false,
        symbols_found := none, error_message := some msg })
  let detected_errors :=
    (detection_attempts.filter (fun a => a.detected)).map (fun a => a.error)
  { detection_rate := detectionRateExpr detected_errors.length known_errors.length
    detected_errors := detected_errors.length
    total_errors := known_errors.length
    errors_found := detected_errors.map (fun e => e.description)
    detection_attempts := detection_attempts }

/-- The `error_patterns` list of `test_traditional_error_detection`
(error_detection_test.py:275-281). -/
def error_patterns : List String :=
  ["resource aws_vpc", "instance_type = 123", "nonexistent",
   "undefined_variable", "not_a_number"]

/-- Whether `pat` occurs as a prefix of `s` (helper for the substring
test). -/
def matchesAt : List Char → List Char → Bool
  | [], _ => true
  | _ :: _, [] => false
  | p :: ps, c :: cs => p = c && matchesAt ps cs

/-- Whether `pat` occurs as a contiguous substring of `s`: Python's
`pat in s` on strings. -/
def containsSub (pat : List Char) : List Char → Bool
  | [] => pat.isEmpty
  | c :: cs => matchesAt pat (c :: cs) || containsSub pat cs

/-- Python `pattern in content` for strings. -/
def pyInStr (pattern content : String) : Bool :=
  containsSub pattern.data content.data

/-- Python `s.endswith` restricted to what the source needs. -/
def pyEndsWith (s suffix : String) : Bool :=
  s.data.drop (s.data.length - suffix.data.length) == suffix.data

/-- The result dict of `test_traditional_error_detection`
(error_detection_test.py:305-310). -/
structure TraditionalSummary where
  traditional_detection_rate : Option ℚ
  patterns_detected : ℕ
  total_patterns : ℕ
  detected_patterns : List String

/-- `ErrorDetectionTester.test_traditional_error_detection`
(error_detection_test.py:269-310): read every `*.tf` file of the
workspace, append every error pattern contained in it, then dedupe
(`len(set(...))`) and divide by the raw pattern count.  The directory
listing is modelled by the materialised (name, content) list; the
conclusions proved about it are independent of listing order. -/
def test_traditional_error_detection (files : List (String × String)) :
    TraditionalSummary :=
  let tf_files := files.filter (fun fc => pyEndsWith fc.1 ".tf")
  let detected_patterns := tf_files.foldl
    (fun acc fc => acc ++ error_patterns.filter (fun p => pyInStr p fc.2)) []
  let distinct := detected_patterns.dedup
  { traditional_detection_rate :=
      (pyDiv (distinct.length : ℚ) (error_patterns.length : ℚ)).map
        (fun r => r * 100)
    patterns_detected := distinct.length
    total_patterns := error_patterns.length
    detected_patterns := distinct }

/-- The cross-mode comparison
`lsp_rate / max(traditional_rate, 1)` (error_detection_test.py:327-329):
the only ratio of the file whose denominator is floored at 1. -/
def improvement_factor (lsp_rate traditional_rate : ℚ) : ℚ :=
  lsp_rate / max traditional_rate 1


/-! ## Claims validation (comprehensive_ab_test.py) -/

/-- The `TestResult` dataclass (comprehensive_ab_test.py:32-41).  The
`details` dict feeds printing only and `errors_detected` is unread by
`analyze_results`, so they are omitted; `execution_time` and
`memory_usage` are sampled upstream and reach `analyze_results` as plain
data, so here they are fields. -/
structure TestResult where
  test_name : String
  mode : String
  success : Bool
  execution_time : ℚ
  memory_usage : ℚ
  confidence_score : ℚ

/-- The value stored in `analysis["claims_validation"]` for a claim: the
Python dict holds either a boolean verdict or the string
`"needs_baseline"`. -/
inductive ClaimVerdict where
  | validated (met : Bool) : ClaimVerdict
  | needs_baseline : ClaimVerdict
deriving DecidableEq

/-- The analysis dict built by `TerraformABTester.analyze_results`
(comprehensive_ab_test.py:648-735); an absent key is `none`. -/
structure Analysis where
  semantic_edit_quality_lsp : Option ℚ
  error_detection_lsp : Option ℚ
  performance_lsp : Option (ℚ × ℚ)
  cv_quality : Option ClaimVerdict
  cv_error_detection : Option ClaimVerdict
  cv_performance : Option ClaimVerdict

/-- `TerraformABTester.analyze_results` (comprehensive_ab_test.py:648-735)
with printing stripped.  The error-detection claim (4-5x improvement)
would need a naive-mode baseline that this program never runs, so whenever
an error-detection result exists its verdict is recorded as
`needs_baseline` (the source stores the string "needs_baseline"), never a
boolean. -/
def analyze_results (results : List TestResult) : Analysis :=
  let semantic_results := results.filter (fun r => r.test_name == "semantic_edit_quality")
  let error_results := results.filter (fun r => r.test_name == "error_detection_confidence")
  let perf_results := results.filter (fun r => r.test_name == "startup_performance")
  { semantic_edit_quality_lsp :=
      (semantic_results.find? (fun r => r.mode == "LSP")).map
        (fun r => r.confidence_score)
    error_detection_lsp :=
      (error_results.find? (fun r => r.mode == "LSP")).map
        (fun r => r.confidence_score)
    performance_lsp :=
      (perf_results.find? (fun r => r.mode == "LSP")).map
        (fun r => (r.execution_time, r.memory_usage))
    cv_quality :=
      semantic_results.head?.map
        (fun r => ClaimVerdict.validated (decide (95 ≤ r.confidence_score)))
    cv_error_detection :=
      if error_results.isEmpty then none else some ClaimVerdict.needs_baseline
    cv_performance :=
      perf_results.head?.map
        (fun r => ClaimVerdict.validated
          (decide (r.execution_time ≤ 1/2) && decide (r.memory_usage ≤ 100))) }


/-! ## Claim theorems -/

/-- C1: for every string, `estimate_tokens` returns a non-negative integer
(its codomain is ℕ) obtained by normalising whitespace runs to single
spaces, taking `base = normalized_length / 4`, adding `0.3` per occurrence
of the fixed punctuation/operator class and truncating: in exact
arithmetic this truncated sum is `(5 * L + 6 * k) / 20` in natural-number
division, where `L` is the normalised length and `k` the
punctuation/operator count; and the empty text yields exactly 0. -/
theorem C1_estimate_tokens_formula :
    (∀ t : String,
      estimate_tokens t =
        (5 * (cleanedText t.data).length +
          6 * ((cleanedText t.data).filter isSpecial).length) / 20)
    ∧ estimate_tokens "" = 0 := by
  refine ⟨estimate_tokens_eq_div, ?_⟩
  rw [estimate_tokens_eq_div]
  rfl

/-- C2: the token estimator is monotonic under appending: for non-empty
strings `t1`, `t2`, `estimate(t1 ++ t2) ≥ estimate(t1)`. -/
theorem C2_estimate_tokens_append_mono (t1 t2 : String)
    (h1 : t1 ≠ "") (h2 : t2 ≠ "") :
    estimate_tokens t1 ≤ estimate_tokens (t1 ++ t2) := by
  rw [estimate_tokens_eq_div, estimate_tokens_eq_div, String.data_append]
  apply Nat.div_le_div_right
  have hL := cleanedText_length_append t1.data t2.data
  have hk : ((cleanedText t1.data).filter isSpecial).length ≤
      ((cleanedText (t1.data ++ t2.data)).filter isSpecial).length := by
    rw [filter_isSpecial_cleanedText, filter_isSpecial_cleanedText,
      List.filter_append, List.length_append]
    exact Nat.le_add_right _ _
  exact Nat.add_le_add (Nat.mul_le_mul (Nat.le_refl 5) hL)
    (Nat.mul_le_mul (Nat.le_refl 6) hk)

/-- Witness for C2 at the concrete non-empty strings "ab" and "cd". -/
theorem C2_witness :
    ("ab" : String) ≠ "" ∧ ("cd" : String) ≠ "" ∧
      estimate_tokens "ab" ≤ estimate_tokens ("ab" ++ "cd") :=
  ⟨by decide, by decide,
    C2_estimate_tokens_append_mono "ab" "cd" (by decide) (by decide)⟩


/-- C3: for every per-scenario pair produced by the scenario loop, the two
results share the scenario identifier, and the comparison record has
`token_savings = naive_total - semantic_total` exactly (integer
subtraction), `efficiency_improvement = savings / max(naive_total, 1) * 100`
and `context_reduction` given by the same formula over the input-token
counts only (output tokens excluded). -/
theorem C3_comparison_record_formulas
    (name kwargs : String) (lsp_func : Except String String)
    (fs : List (String × String)) (non_lsp_files : List String) :
    (benchmark_lsp_operation name kwargs lsp_func).operation =
        (benchmark_non_lsp_operation name fs non_lsp_files).operation
    ∧ (runScenario name kwargs lsp_func fs non_lsp_files).token_savings =
        ((benchmark_non_lsp_operation name fs non_lsp_files).total_tokens : ℤ) -
          ((benchmark_lsp_operation name kwargs lsp_func).total_tokens : ℤ)
    ∧ (runScenario name kwargs lsp_func fs non_lsp_files).efficiency_improvement =
        (((benchmark_non_lsp_operation name fs non_lsp_files).total_tokens : ℚ) -
            ((benchmark_lsp_operation name kwargs lsp_func).total_tokens : ℚ)) /
          max ((benchmark_non_lsp_operation name fs non_lsp_files).total_tokens : ℚ) 1
          * 100
    ∧ (runScenario name kwargs lsp_func fs non_lsp_files).context_reduction =
        (((benchmark_non_lsp_operation name fs non_lsp_files).input_tokens : ℚ) -
            ((benchmark_lsp_operation name kwargs lsp_func).input_tokens : ℚ)) /
          max ((benchmark_non_lsp_operation name fs non_lsp_files).input_tokens : ℚ) 1
          * 100 := by
  refine ⟨?_, rfl, ?_, ?_⟩
  · cases lsp_func <;> rfl
  · simp only [runScenario, mkBenchmarkResult]
    rw [Nat.cast_max]
    norm_num
  · simp only [runScenario, mkBenchmarkResult]
    rw [Nat.cast_max]
    norm_num

/-- C10: every token-usage record of either mode satisfies
`total_tokens = input_tokens + output_tokens`, and the two summands are
exactly the estimator applied to the operation's input context and output
payload respectively (shown for `count_operation_tokens` and for the
output payloads of the LSP executor's two branches). -/
theorem C10_total_tokens_invariant :
    (∀ i o : String,
      (count_operation_tokens i o).1 = estimate_tokens i
      ∧ (count_operation_tokens i o).2.1 = estimate_tokens o
      ∧ (count_operation_tokens i o).2.2 =
          (count_operation_tokens i o).1 + (count_operation_tokens i o).2.1)
    ∧ (∀ (name kwargs : String) (call : Except String String),
        (benchmark_lsp_operation name kwargs call).total_tokens =
          (benchmark_lsp_operation name kwargs call).input_tokens +
            (benchmark_lsp_operation name kwargs call).output_tokens)
    ∧ (∀ (name : String) (fs : List (String × String)) (files : List String),
        (benchmark_non_lsp_operation name fs files).total_tokens =
          (benchmark_non_lsp_operation name fs files).input_tokens +
            (benchmark_non_lsp_operation name fs files).output_tokens)
    ∧ (∀ (name kwargs r : String),
        (benchmark_lsp_operation name kwargs (Except.ok r)).output_tokens =
          estimate_tokens r)
    ∧ (∀ (name kwargs e : String),
        (benchmark_lsp_operation name kwargs (Except.error e)).output_tokens =
          estimate_tokens ("Error: " ++ e)) := by
  refine ⟨fun i o => ⟨rfl, rfl, rfl⟩, fun name kwargs call => ?_,
    fun name fs files => rfl, fun name kwargs r => rfl, fun name kwargs e => rfl⟩
  cases call <;> rfl

/-- C4: an exception from the underlying call is caught: the LSP executor
returns a result with the success flag false; the error-detection batch
still produces one attempt per known error (it never aborts), and every
attempt whose oracle call raised carries `detected = false` and retains
the raised message verbatim in its `error_message` field (so the summary
entry's message is non-empty whenever the exception's message is). -/
theorem C4_failure_policy (oracle : String → Except String ℕ)
    (name kwargs e : String) :
    (benchmark_lsp_operation name kwargs (Except.error e)).success = false
    ∧ (test_lsp_error_detection oracle).detection_attempts.length =
        known_errors.length
    ∧ (∀ a ∈ (test_lsp_error_detection oracle).detection_attempts,
        ∀ msg, oracle a.error.pattern = Except.error msg →
          a.detected = false ∧ a.error_message = some msg) := by
  refine ⟨rfl, by simp [test_lsp_error_detection], ?_⟩
  intro a ha msg hmsg
  simp only [test_lsp_error_detection, List.mem_map] at ha
  obtain ⟨e0, _, rfl⟩ := ha
  cases h0 : oracle e0.pattern with
  | ok n => simp [h0] at hmsg
  | error m0 =>
    simp [h0] at hmsg
    simp [h0, hmsg]


/-- A concrete service oracle for the C4 witness: the query for the
pattern "nonexistent" raises, every other query returns one symbol. -/
def sampleOracle : String → Except String ℕ :=
  fun p =>
    if p = "nonexistent" then Except.error "LSP backend unavailable"
    else Except.ok 1

/-- The attempt recorded for the fifth known error under `sampleOracle`. -/
def sampleFailedAttempt : DetectionAttempt :=
  { error :=
      { type := "invalid_reference",
        description := "Reference to non-existent subnet",
        pattern := "nonexistent", file := "reference_errors.tf" },
    detected := false, symbols_found := none,
    error_message := some "LSP backend unavailable" }

/-- Witness for C4 at a concrete oracle whose "nonexistent" query raises:
the LSP executor marks a raising call unsuccessful, the batch still has
one attempt per known error, and the failed attempt retains the non-empty
message. -/
theorem C4_witness :
    (benchmark_lsp_operation "Find all VPC resources" ""
        (Except.error "boom")).success = false
    ∧ (test_lsp_error_detection sampleOracle).detection_attempts.length =
        known_errors.length
    ∧ sampleFailedAttempt ∈
        (test_lsp_error_detection sampleOracle).detection_attempts
    ∧ sampleFailedAttempt.detected = false
    ∧ sampleFailedAttempt.error_message = some "LSP backend unavailable" := by
  have h := C4_failure_policy sampleOracle "Find all VPC resources" "" "boom"
  have hmem : sampleFailedAttempt ∈
      (test_lsp_error_detection sampleOracle).detection_attempts := by decide
  have hprops := h.2.2 sampleFailedAttempt hmem "LSP backend unavailable" rfl
  exact ⟨h.1, h.2.1, hmem, hprops.1, hprops.2⟩


/-- C5 counterexample: the detection-rate expression of
error_detection_test.py:252 divides by the raw number of known errors with
no floor, so on a degenerate scenario set with zero expected defects and
nothing found it raises `ZeroDivisionError` (modelled `none`) instead of
being defined and equal to 0 as the claim states. -/
theorem C5_counterexample :
    detectionRateExpr 0 0 = none ∧ detectionRateExpr 0 0 ≠ some 0 := by
  constructor
  · simp [detectionRateExpr, pyDiv]
  · simp [detectionRateExpr, pyDiv]

/-- C5 amended: only the cross-mode `improvement_factor` ratio floors its
denominator at 1 (so a zero baseline rate saturates instead of raising);
the detection rates divide by the raw totals without a floor, but those
totals are the non-zero constants of this program (7 known errors), so the
detection-rate computation is defined for every oracle outcome and never
raises here: a scenario set with zero expected defects would raise rather
than yield 0. -/
theorem C5_amended_ratio_denominators :
    (∀ oracle : String → Except String ℕ,
      ((test_lsp_error_detection oracle).detection_rate).isSome = true)
    ∧ known_errors.length = 7
    ∧ (∀ lsp_rate : ℚ, improvement_factor lsp_rate 0 = lsp_rate) := by
  refine ⟨?_, rfl, ?_⟩
  · intro oracle
    have h7 : ((known_errors.length : ℕ) : ℚ) ≠ 0 := by
      rw [show known_errors.length = 7 from rfl]
      norm_num
    simp [test_lsp_error_detection, detectionRateExpr, pyDiv, h7]
  · intro lsp_rate
    have hmax : max (0 : ℚ) 1 = 1 := by norm_num
    rw [improvement_factor, hmax, div_one]

/-- C6 counterexample: with an empty workspace, the naive-mode executor
asked to read "main.tf" (a missing fixture file) still reports success —
the `FileNotFoundError` handler silently skips the file — contradicting
the claim that the scenario's result does not report success. -/
theorem C6_counterexample :
    (benchmark_non_lsp_operation "Find all VPC resources" [] ["main.tf"]).success
      = true := rfl

/-- Files missing from the workspace contribute nothing to the
accumulated content, for any starting accumulator. -/
theorem non_lsp_all_content_filter_aux
    (fs : List (String × String)) (files : List String) : ∀ acc : String,
    files.foldl
      (fun acc file_path =>
        match fs.lookup file_path with
        | some content =>
          acc ++ "\n# File: " ++ file_path ++ "\n" ++ content ++ "\n"
        | none => acc) acc =
    (files.filter (fun f => (fs.lookup f).isSome)).foldl
      (fun acc file_path =>
        match fs.lookup file_path with
        | some content =>
          acc ++ "\n# File: " ++ file_path ++ "\n" ++ content ++ "\n"
        | none => acc) acc := by
  induction files with
  | nil => intro acc; rfl
  | cons f rest ih =>
    intro acc
    cases hf : fs.lookup f with
    | some content =>
      rw [List.foldl_cons, List.filter_cons_of_pos (by simp [hf]),
        List.foldl_cons]
      simp only [hf]
      exact ih _
    | none =>
      rw [List.foldl_cons, List.filter_cons_of_neg (by simp [hf])]
      simp only [hf]
      exact ih _

/-- C6 amended: a fixture file missing when the naive-mode executor reads
it is silently skipped, not a scenario failure: the result still reports
success for every workspace and file list, and the accumulated content
equals the content accumulated over just the files actually present. -/
theorem C6_amended_missing_files_skipped (name : String)
    (fs : List (String × String)) (files : List String) :
    (benchmark_non_lsp_operation name fs files).success = true
    ∧ non_lsp_all_content fs files =
        non_lsp_all_content fs (files.filter (fun f => (fs.lookup f).isSome)) :=
  ⟨rfl, non_lsp_all_content_filter_aux fs files ""⟩


/-- C7: whenever the results contain an error-detection entry, the
claims-validation summary reports the error-detection claim (which needs a
naive-mode baseline this program never measures) with the explicit
needs-baseline verdict, never a boolean pass/fail. -/
theorem C7_needs_baseline_verdict (results : List TestResult)
    (h : ∃ r ∈ results, r.test_name = "error_detection_confidence") :
    (analyze_results results).cv_error_detection =
        some ClaimVerdict.needs_baseline
    ∧ ∀ met : Bool,
        (analyze_results results).cv_error_detection ≠
          some (ClaimVerdict.validated met) := by
  obtain ⟨r, hr, hname⟩ := h
  have hmem : r ∈ results.filter
      (fun x => x.test_name == "error_detection_confidence") :=
    List.mem_filter.mpr ⟨hr, by simp [hname]⟩
  have hne : (results.filter
      (fun x => x.test_name == "error_detection_confidence")).isEmpty = false := by
    rcases hfilter : results.filter
        (fun x => x.test_name == "error_detection_confidence") with _ | ⟨a, as⟩
    · rw [hfilter] at hmem
      cases hmem
    · rw [hfilter]
      rfl
  constructor
  · simp [analyze_results, hne]
  · intro met
    simp [analyze_results, hne]

/-- A concrete error-detection test result for the C7 witness. -/
def sampleErrorResult : TestResult :=
  { test_name := "error_detection_confidence", mode := "LSP", success := true,
    execution_time := 0, memory_usage := 0, confidence_score := 100 }

/-- Witness for C7 on a concrete one-element result list. -/
theorem C7_witness :
    (analyze_results [sampleErrorResult]).cv_error_detection =
      some ClaimVerdict.needs_baseline :=
  (C7_needs_baseline_verdict [sampleErrorResult]
    ⟨sampleErrorResult, List.mem_singleton.mpr rfl, rfl⟩).1

/-- The file tree of a materialised workspace with the workspace path
stripped from each file name: the part of the tree a determinism
comparison across workspaces looks at. -/
def relativeTo (workspace : String) (files : List (String × String)) :
    List (List Char × String) :=
  files.map (fun pc => (pc.1.data.drop (workspace.length + 1), pc.2))

/-- Dropping the workspace path and separator slash recovers the relative
file name. -/
theorem drop_workspace_data (w n : String) :
    (w ++ "/" ++ n).data.drop (w.length + 1) = n.data := by
  rw [String.data_append, String.data_append]
  have hlen : (w.data ++ "/".data).length = w.length + 1 := by
    rw [List.length_append]
    rfl
  rw [← hlen, List.drop_left]

/-- Materialising a constant (name, content) tree under any workspace and
stripping the workspace back off yields the tree's own data, whatever the
workspace was. -/
theorem relativeTo_materialize (tree : List (String × String)) (w : String) :
    relativeTo w (tree.map (fun fc => (w ++ "/" ++ fc.1, fc.2))) =
      tree.map (fun fc => (fc.1.data, fc.2)) := by
  induction tree with
  | nil => rfl
  | cons fc rest ih =>
    simp only [relativeTo, List.map_cons] at ih ⊢
    rw [ih, drop_workspace_data]

/-- C8: fixture materialisation is deterministic: materialising the error
scenarios or the realistic terraform project into two distinct workspaces
yields byte-identical relative file trees (same relative names, same
contents), with no other dependence — the embedded contents are constants
of the program. -/
theorem C8_fixture_determinism (w1 w2 : String) (hne : w1 ≠ w2) :
    relativeTo w1 (create_error_scenarios w1) =
        relativeTo w2 (create_error_scenarios w2)
    ∧ relativeTo w1 (create_realistic_terraform_project w1) =
        relativeTo w2 (create_realistic_terraform_project w2) :=
  ⟨(relativeTo_materialize error_scenario_files w1).trans
      (relativeTo_materialize error_scenario_files w2).symm,
    (relativeTo_materialize project_fixture_files w1).trans
      (relativeTo_materialize project_fixture_files w2).symm⟩

/-- Witness for C8 at two concrete distinct workspace paths. -/
theorem C8_witness :
    ("/tmp/wsA" : String) ≠ "/tmp/wsB"
    ∧ relativeTo "/tmp/wsA" (create_error_scenarios "/tmp/wsA") =
        relativeTo "/tmp/wsB" (create_error_scenarios "/tmp/wsB")
    ∧ relativeTo "/tmp/wsA" (create_realistic_terraform_project "/tmp/wsA") =
        relativeTo "/tmp/wsB" (create_realistic_terraform_project "/tmp/wsB") :=
  ⟨by decide,
    (C8_fixture_determinism "/tmp/wsA" "/tmp/wsB" (by decide)).1,
    (C8_fixture_determinism "/tmp/wsA" "/tmp/wsB" (by decide)).2⟩

/-- C9: the materialised error fixture contains the literal substring
"undefined_variable" in a file whose name matches `*.tf`, the naive-mode
text scan over the fixture finds it, so the deduplicated detection list is
non-empty (count ≥ 1) and the scan completes with a defined detection
rate. -/
theorem C9_traditional_scan_detects :
    ("reference_errors.tf", reference_errors_tf) ∈ error_scenario_files
    ∧ pyEndsWith "reference_errors.tf" ".tf" = true
    ∧ pyInStr "undefined_variable" reference_errors_tf = true
    ∧ "undefined_variable" ∈
        (test_traditional_error_detection error_scenario_files).detected_patterns
    ∧ 1 ≤ (test_traditional_error_detection error_scenario_files).patterns_detected
    ∧ ((test_traditional_error_detection
        error_scenario_files).traditional_detection_rate).isSome = true := by
  refine ⟨by decide, by decide, by decide, by decide, by decide, ?_⟩
  have h5 : ((error_patterns.length : ℕ) : ℚ) ≠ 0 := by
    rw [show error_patterns.length = 5 from rfl]
    norm_num
  simp [test_traditional_error_detection, pyDiv, h5]

end SerenaLab
